import Mathlib

/-!
# Panda3D `express` / `keyvalues` library initialisation

A shallow embedding of `panda/src/express/config_express.cxx` and
`panda/src/keyvalues/config_keyvalues.cxx`:

* the process-wide configuration registry used by the `ConfigVariable*`
  declarations (the `ConfigVariable` classes live in `dtool`, outside the two
  files; they are modelled from the specification);
* the fourteen static declarations and the three lazily declared variables
  of `config_express.cxx`;
* the guarded one-time initialisers `init_libexpress` and
  `init_libkeyvalues`, as a statement list run on an explicit process state.
-/

namespace Panda

/-! ## Configuration values -/

/-- The four scalar types a configuration variable may have
(`ConfigVariableInt`, `ConfigVariableBool`, `ConfigVariableDouble`,
`ConfigVariableString`). -/
inductive ValueType where
  | int
  | bool
  | double
  | string
  deriving DecidableEq, Repr

/-- The C++ type of the values of a configuration variable of type `T`
(`double` is an IEEE binary64, which is what `Float` is). -/
@[reducible]
def ValueType.carrier : ValueType → Type
  | .int => Int
  | .bool => Bool
  | .double => Float
  | .string => String

/-- A value of any of the four scalar types, as stored in the table and
as supplied by an external override. -/
inductive Value where
  | int (i : Int)
  | bool (b : Bool)
  | double (d : Float)
  | string (s : String)

/-- Injection of a typed value into `Value`. -/
def Value.of : (T : ValueType) → T.carrier → Value
  | .int, i => .int i
  | .bool, b => .bool b
  | .double, d => .double d
  | .string, s => .string s

/-- Projection of a `Value` to type `T`; `none` when the value has another
type. -/
def Value.as : (T : ValueType) → Value → Option T.carrier
  | .int, .int i => some i
  | .bool, .bool b => some b
  | .double, .double d => some d
  | .string, .string s => some s
  | _, _ => none

/-! ## The configuration registry -/

/-- Modelled from the spec: the `ConfigEntry` of the data model (the
`ConfigVariable` classes are not part of the two source files).  An entry is
identified by its key, has a static default of one scalar type and an
optional description. -/
structure ConfigEntry where
  key : String
  default_value : Value
  description : Option String

/-- Modelled from the spec: the process-wide configuration table of the
absent `ConfigVariable` machinery.  `table` holds the declared entries in
registration order; `overrides` holds the externally supplied values (from a
configuration file, the command line or the environment), at most one per
key, which may be present before the key is declared. -/
structure ConfigRegistry where
  table : List ConfigEntry
  overrides : List (String × Value)

/-- Modelled from the spec: `Handle<T>`, what `declare` returns and `read`
takes; it stands for the `ConfigVariableInt/Bool/Double/String` object, which
knows its key and its default. -/
structure Handle (T : ValueType) where
  key : String
  default_value : T.carrier

/-- Modelled from the spec: the two ways in which the operations fail.
`DuplicateKeyError` is the error of `declare` on a key that is already
declared; `assertion` is a violated invariant assertion (`nassertv`, a macro
of `dtool` that is not part of the two files), which is fatal and aborts the
process. -/
inductive Failure where
  | DuplicateKeyError (key : String)
  | assertion (condition : String)
  deriving DecidableEq, Repr

/-- Modelled from the spec: the registry before anything is declared, with
the overrides the external configuration sources have supplied so far. -/
def ConfigRegistry.initial (overrides : List (String × Value)) : ConfigRegistry :=
  { table := [], overrides := overrides }

/-- Modelled from the spec: the entry of the table registered under `key`,
if any. -/
def ConfigRegistry.find (r : ConfigRegistry) (key : String) : Option ConfigEntry :=
  r.table.find? (fun e => e.key == key)

/-- Modelled from the spec: whether `key` has been declared, that is,
whether the table has an entry for it. -/
def ConfigRegistry.is_declared (r : ConfigRegistry) (key : String) : Bool :=
  r.table.any (fun e => e.key == key)

/-- Modelled from the spec: `declare(key, defaultValue, description?)` of the
absent `ConfigVariable` constructors.  The key must be unique within the
process: redeclaration fails with `DuplicateKeyError` and leaves the table as
it was; otherwise the entry is inserted into the process-wide table and a
handle is returned.  The result is the pair of the outcome and the registry
afterwards. -/
def ConfigRegistry.declare (T : ValueType) (key : String) (default_value : T.carrier)
    (description : Option String) (r : ConfigRegistry) :
    Except Failure (Handle T) × ConfigRegistry :=
  if r.is_declared key then
    (.error (.DuplicateKeyError key), r)
  else
    (.ok { key := key, default_value := default_value },
     { r with table := r.table ++ [{ key := key, default_value := Value.of T default_value,
                                     description := description }] })

/-- Modelled from the spec: `override(key, value)` of the absent external
configuration sources.  The value may be set before or after the declaration
of the key; the last value written is the one kept (no history). -/
def ConfigRegistry.override (key : String) (value : Value) (r : ConfigRegistry) :
    ConfigRegistry :=
  { r with overrides := (key, value) :: r.overrides.filter (fun kv => !(kv.1 == key)) }

/-- Modelled from the spec: `read(handle)` of the absent `ConfigVariable`
classes: the current effective value, the override if one is set externally,
else the default.  No failure mode.  What an override of another type than
the variable's yields is left open by the specification; it is the parameter
`resolve` (given the type, the default and the ill-typed override). -/
def ConfigRegistry.read (resolve : (T : ValueType) → T.carrier → Value → T.carrier)
    {T : ValueType} (r : ConfigRegistry) (h : Handle T) : T.carrier :=
  match r.overrides.lookup h.key with
  | none => h.default_value
  | some v =>
    match v.as T with
    | some x => x
    | none => resolve T h.default_value v

/-! ## The declarations of `config_express.cxx` -/

/-- One `ConfigVariableT name("key", default, PRC_DESC("..."))` definition:
the arguments handed to the constructor. -/
structure Declaration where
  type : ValueType
  key : String
  default_value : type.carrier
  description : Option String

/-- Constructing the variable: the constructor declares the key in the
registry. -/
def Declaration.construct (d : Declaration) (r : ConfigRegistry) :
    Except Failure (Handle d.type) × ConfigRegistry :=
  r.declare d.type d.key d.default_value d.description

/-!
The fourteen static variables, lines 44-133 of `config_express.cxx`, in
source order.  `PRC_DESC` is a macro of `dtool` that is not part of the file;
it is a parameter (it maps the description text to the text that is stored).
-/

/-- The static variable `patchfile_window_size`. -/
def patchfile_window_size : Declaration :=
  { type := .int, key := "patchfile-window-size", default_value := (16 : Int),
    description := none }

/-- The static variable `patchfile_increment_size`. -/
def patchfile_increment_size : Declaration :=
  { type := .int, key := "patchfile-increment-size", default_value := (8 : Int),
    description := none }

/-- The static variable `patchfile_buffer_size`. -/
def patchfile_buffer_size : Declaration :=
  { type := .int, key := "patchfile-buffer-size", default_value := (4096 : Int),
    description := none }

/-- The static variable `patchfile_zone_size`. -/
def patchfile_zone_size : Declaration :=
  { type := .int, key := "patchfile-zone-size", default_value := (10000 : Int),
    description := none }

/-- The static variable `keep_temporary_files`. -/
def keep_temporary_files (PRC_DESC : String → String) : Declaration :=
  { type := .bool, key := "keep-temporary-files", default_value := (false : Bool),
    description := some (PRC_DESC (
        "Set this true to keep around the temporary files from " ++
        "downloading, decompressing, and patching, or false (the " ++
        "default) to delete these.  Mainly useful for debugging " ++
        "when the process goes wrong.")) }

/-- The static variable `encryption_algorithm`. -/
def encryption_algorithm (PRC_DESC : String → String) : Declaration :=
  { type := .string, key := "encryption-algorithm", default_value := ("bf-cbc" : String),
    description := some (PRC_DESC (
        "This defines the OpenSSL encryption algorithm which is used to " ++
        "encrypt any streams created by the current runtime.  The default is " ++
        "Blowfish; the complete set of available algorithms is defined by " ++
        "the current version of OpenSSL.  This value is used only to control " ++
        "encryption; the correct algorithm will automatically be selected on " ++
        "decryption.")) }

/-- The static variable `encryption_key_length`. -/
def encryption_key_length (PRC_DESC : String → String) : Declaration :=
  { type := .int, key := "encryption-key-length", default_value := (0 : Int),
    description := some (PRC_DESC (
        "This defines the key length, in bits, for the selected encryption " ++
        "algorithm.  Some algorithms have a variable key length.  Specifying " ++
        "a value of 0 here means to use the default key length for the " ++
        "algorithm as defined by OpenSSL.  This value is used only to " ++
        "control encryption; the correct key length will automatically be " ++
        "selected on decryption.")) }

/-- The static variable `encryption_iteration_count`. -/
def encryption_iteration_count (PRC_DESC : String → String) : Declaration :=
  { type := .int, key := "encryption-iteration-count", default_value := (100000 : Int),
    description := some (PRC_DESC (
        "This defines the number of times a password is hashed to generate a " ++
        "key when encrypting.  Its purpose is to make it computationally " ++
        "more expensive for an attacker to search the key space " ++
        "exhaustively.  This should be a multiple of 1,000 and should not " ++
        "exceed about 65 million; the value 0 indicates just one application " ++
        "of the hashing algorithm.  This value is used only to control " ++
        "encryption; the correct count will automatically be selected on " ++
        "decryption.")) }

/-- The static variable `multifile_encryption_iteration_count`. -/
def multifile_encryption_iteration_count (PRC_DESC : String → String) : Declaration :=
  { type := .int, key := "multifile-encryption-iteration-count", default_value := (0 : Int),
    description := some (PRC_DESC (
        "This is a special value of encryption-iteration-count used to encrypt " ++
        "subfiles within a multifile.  It has a default value of 0 (just one " ++
        "application), on the assumption that the files from a multifile must " ++
        "be loaded quickly, without paying the cost of an expensive hash on " ++
        "each subfile in order to decrypt it.")) }

/-- The static variable `vfs_case_sensitive`. -/
def vfs_case_sensitive (PRC_DESC : String → String) : Declaration :=
  { type := .bool, key := "vfs-case-sensitive", default_value := (true : Bool),
    description := some (PRC_DESC (
        "Set this true to make the VirtualFileSystem present the native " ++
        "OS-provided filesystem as if it were a case-sensitive file " ++
        "system, even if it is not (e.g. on Windows).  This variable " ++
        "has no effect if the native filesystem is already case-sensitive, " ++
        "and it has no effect on mounted multifile systems, which are " ++
        "always case-sensitive.")) }

/-- The static variable `vfs_implicit_pz`. -/
def vfs_implicit_pz (PRC_DESC : String → String) : Declaration :=
  { type := .bool, key := "vfs-implicit-pz", default_value := (true : Bool),
    description := some (PRC_DESC (
        "When this is true, the VirtualFileSystem will pretend a named " ++
        "file exists even if it doesn't, as long as a filename with the " ++
        "same name and the additional extension .pz does exist.  In this " ++
        "case, the VirtualFileSystem will implicitly open the .pz file " ++
        "and decompress it on-the-fly.")) }

/-- The static variable `use_vfs`. -/
def use_vfs (PRC_DESC : String → String) : Declaration :=
  { type := .bool, key := "use-vfs", default_value := (true : Bool),
    description := some (PRC_DESC (
        "Set this true to use the VirtualFileSystem mechanism for loading " ++
        "models, etc.  Since the VirtualFileSystem is now the de facto " ++
        "filesystem for Panda, you should always keep this true, since " ++
        "there is now code that assumes it to be true.  This variable " ++
        "is now deprecated.")) }

/-- The static variable `collect_tcp`. -/
def collect_tcp (PRC_DESC : String → String) : Declaration :=
  { type := .bool, key := "collect-tcp", default_value := (false : Bool),
    description := some (PRC_DESC (
        "Set this true to enable accumulation of several small consecutive " ++
        "TCP datagrams into one large datagram before sending it, to reduce " ++
        "overhead from the TCP/IP protocol.  See " ++
        "Connection::set_collect_tcp() or SocketStream::set_collect_tcp().")) }

/-- The static variable `collect_tcp_interval`. -/
def collect_tcp_interval : Declaration :=
  { type := .double, key := "collect-tcp-interval", default_value := (0.2 : Float),
    description := none }

/-- The static declarations of `config_express.cxx`, in source order. -/
def express_declarations (PRC_DESC : String → String) : List Declaration :=
  [patchfile_window_size,
   patchfile_increment_size,
   patchfile_buffer_size,
   patchfile_zone_size,
   keep_temporary_files PRC_DESC,
   encryption_algorithm PRC_DESC,
   encryption_key_length PRC_DESC,
   encryption_iteration_count PRC_DESC,
   multifile_encryption_iteration_count PRC_DESC,
   vfs_case_sensitive PRC_DESC,
   vfs_implicit_pz PRC_DESC,
   use_vfs PRC_DESC,
   collect_tcp PRC_DESC,
   collect_tcp_interval]

/-! ## Build configuration and platform -/

/-- The preprocessor symbols the two files test.  `NDEBUG` decides whether
the `nassertv` lines exist at all. -/
structure Build where
  HAVE_ZLIB : Bool
  WORDS_BIGENDIAN : Bool
  NDEBUG : Bool
  deriving DecidableEq, Repr

/-- The order in which the bytes of a 32-bit word lie in memory. -/
inductive ByteOrder where
  | little
  | big
  | pdp
  deriving DecidableEq, Repr

/-- What the compiler and the machine make of the typedefs of
`numeric_types.h` (which is not part of the two files): the `sizeof` of each
of the ten numeric types, and the byte order of the machine. -/
structure Platform where
  sizeof_PN_int8 : Nat
  sizeof_PN_uint8 : Nat
  sizeof_PN_int16 : Nat
  sizeof_PN_uint16 : Nat
  sizeof_PN_int32 : Nat
  sizeof_PN_uint32 : Nat
  sizeof_PN_int64 : Nat
  sizeof_PN_uint64 : Nat
  sizeof_PN_float32 : Nat
  sizeof_PN_float64 : Nat
  byte_order : ByteOrder
  deriving DecidableEq, Repr

/-- For each memory offset 0..3 of a 32-bit word, the significance (0 = least
significant) of the byte stored there. -/
def ByteOrder.significance : ByteOrder → List Nat
  | .little => [0, 1, 2, 3]
  | .big => [3, 2, 1, 0]
  | .pdp => [2, 3, 0, 1]

/-- The value of the `PN_uint32 word` after `memcpy(&word, bytes, 4)`: the
byte at offset `i` contributes `byte * 256 ^ significance i`. -/
def memcpy_word (order : ByteOrder) (bytes : List Nat) : Nat :=
  ((bytes.zip order.significance).map (fun bs => (bs.1 % 256) * 256 ^ bs.2)).sum % 2 ^ 32

/-! ## The process state and the statements of the initialisers -/

/-- The two libraries whose initialiser is in the source. -/
inductive Module where
  | express
  | keyvalues
  deriving DecidableEq, Repr

/-- The statements of the two initialisers that follow the guard
`if (initialized) return;`.  The calls into other parts of the engine
(`X::init_type()`, `init_system_type_handles()`,
`PandaSystem::add_system(name)`) are kept as named calls: their effect on the
process is that they have been made, in order. -/
inductive Stmt where
  | set_initialized (m : Module)
  | init_type (cls : String)
  | init_system_type_handles
  | add_system (name : String)
  | nassertv (condition : String) (holds : Bool)
  deriving DecidableEq, Repr

/-- The state of the process, as far as the two files touch it: the
configuration registry, the function-local `static bool initialized` of each
initialiser, the function-local static pointers of the three lazy accessors
(`none` is `NULL`), and the statements the initialisers have executed so far,
oldest first. -/
structure Process where
  config : ConfigRegistry
  express_initialized : Bool
  keyvalues_initialized : Bool
  use_high_res_clock : Option (Handle .bool)
  paranoid_clock : Option (Handle .bool)
  verify_dcast : Option (Handle .bool)
  log : List Stmt

/-- The process at start-up: nothing declared, nothing initialised, all
static pointers `NULL`; the external configuration sources may already have
supplied overrides. -/
def Process.start (overrides : List (String × Value)) : Process :=
  { config := ConfigRegistry.initial overrides,
    express_initialized := false,
    keyvalues_initialized := false,
    use_high_res_clock := none,
    paranoid_clock := none,
    verify_dcast := none,
    log := [] }

/-- The `initialized` flag of a module. -/
def Process.initialized (p : Process) : Module → Bool
  | .express => p.express_initialized
  | .keyvalues => p.keyvalues_initialized

/-- Modelled from the spec: `nassertv(condition)`, a macro of `dtool` that is
not part of the two files.  A violated assertion is a fatal, unrecoverable
error: the process is aborted (the outcome `Failure.assertion`); a true
condition has no effect. -/
def nassertv (condition : String) (holds : Bool) (p : Process) :
    Except Failure Unit × Process :=
  if holds then (.ok (), p) else (.error (.assertion condition), p)

/-- Execution of one statement.  Every executed statement is appended to the
log; the assignment sets the flag of its function; the calls into the rest
of the engine have no further effect on the state modelled here. -/
def exec (st : Stmt) (p : Process) : Except Failure Unit × Process :=
  let q := { p with log := p.log ++ [st] }
  match st with
  | .set_initialized .express => (.ok (), { q with express_initialized := true })
  | .set_initialized .keyvalues => (.ok (), { q with keyvalues_initialized := true })
  | .init_type _ => (.ok (), q)
  | .init_system_type_handles => (.ok (), q)
  | .add_system _ => (.ok (), q)
  | .nassertv condition holds => nassertv condition holds q

/-- Execution of a statement list, in order; a failure ends it. -/
def run : List Stmt → Process → Except Failure Unit × Process
  | [], p => (.ok (), p)
  | st :: rest, p =>
    match exec st p with
    | (.ok (), q) => run rest q
    | (.error e, q) => (.error e, q)

/-- Lines 175-180 of `config_express.cxx`: the six assertions on the sizes of
the numeric types. -/
def width_assertions (pf : Platform) : List Stmt :=
  [.nassertv "sizeof(PN_int8) == 1 && sizeof(PN_uint8) == 1"
     (pf.sizeof_PN_int8 == 1 && pf.sizeof_PN_uint8 == 1),
   .nassertv "sizeof(PN_int16) == 2 && sizeof(PN_uint16) == 2"
     (pf.sizeof_PN_int16 == 2 && pf.sizeof_PN_uint16 == 2),
   .nassertv "sizeof(PN_int32) == 4 && sizeof(PN_uint32) == 4"
     (pf.sizeof_PN_int32 == 4 && pf.sizeof_PN_uint32 == 4),
   .nassertv "sizeof(PN_int64) == 8 && sizeof(PN_uint64) == 8"
     (pf.sizeof_PN_int64 == 8 && pf.sizeof_PN_uint64 == 8),
   .nassertv "sizeof(PN_float32) == 4" (pf.sizeof_PN_float32 == 4),
   .nassertv "sizeof(PN_float64) == 8" (pf.sizeof_PN_float64 == 8)]

/-- Lines 183-189 of `config_express.cxx`: the word is filled from the bytes
1, 2, 3, 4 and compared with the constant selected by `WORDS_BIGENDIAN`.
(The local variable `word` has no other use; in a debug build this line is
reached only after the assertion `sizeof(PN_uint32) == 4` has passed.) -/
def endian_assertion (b : Build) (pf : Platform) : Stmt :=
  let word := memcpy_word pf.byte_order [1, 2, 3, 4]
  if b.WORDS_BIGENDIAN then
    .nassertv "word == 0x01020304" (word == 0x01020304)
  else
    .nassertv "word == 0x04030201" (word == 0x04030201)

/-- Modelled from the spec: in an optimised build (`NDEBUG`) the `nassertv`
lines are compiled out entirely. -/
def assertions (b : Build) (pf : Platform) : List Stmt :=
  if b.NDEBUG then [] else width_assertions pf ++ [endian_assertion b pf]

/-- The statements of `init_libexpress` after the guard, lines 149-189 of
`config_express.cxx`, in source order. -/
def init_libexpress_stmts (b : Build) (pf : Platform) : List Stmt :=
  [.set_initialized .express,
   .init_type "Datagram",
   .init_type "NodeReferenceCount",
   .init_type "ReferenceCount",
   .init_type "TextEncoder",
   .init_type "TypedObject",
   .init_type "TypedReferenceCount",
   .init_type "VirtualFile",
   .init_type "VirtualFileComposite",
   .init_type "VirtualFileMount",
   .init_type "VirtualFileMountMultifile",
   .init_type "VirtualFileMountSystem",
   .init_type "VirtualFileSimple",
   .init_system_type_handles]
  ++ (if b.HAVE_ZLIB then [.add_system "zlib"] else [])
  ++ assertions b pf

/-- The function `init_libexpress`. -/
def init_libexpress (b : Build) (pf : Platform) (p : Process) :
    Except Failure Unit × Process :=
  if p.express_initialized then
    (.ok (), p)
  else
    run (init_libexpress_stmts b pf) p

/-- The statements of `init_libkeyvalues` after the guard, line 17 of
`config_keyvalues.cxx`. -/
def init_libkeyvalues_stmts : List Stmt :=
  [.set_initialized .keyvalues]

/-- The function `init_libkeyvalues`. -/
def init_libkeyvalues (p : Process) : Except Failure Unit × Process :=
  if p.keyvalues_initialized then
    (.ok (), p)
  else
    run init_libkeyvalues_stmts p

/-- The entry point called `n` times in a row; a failure (the process has
been aborted) ends the sequence. -/
def call_n (f : Process → Except Failure Unit × Process) :
    Nat → Process → Except Failure Unit × Process
  | 0, p => (.ok (), p)
  | n + 1, p =>
    match f p with
    | (.ok (), q) => call_n f n q
    | (.error e, q) => (.error e, q)

/-- How many times the statements after the guard of module `m` have been
entered: the number of executions of their first statement,
`initialized = true`. -/
def body_runs (m : Module) (p : Process) : Nat :=
  p.log.count (.set_initialized m)

/-- Whether a statement is a call into the rest of the engine. -/
def Stmt.is_call : Stmt → Bool
  | .init_type _ => true
  | .init_system_type_handles => true
  | .add_system _ => true
  | _ => false

/-- The calls into the rest of the engine among the executed statements:
type registrations, `init_system_type_handles` and system announcements. -/
def registrations (p : Process) : List Stmt :=
  p.log.filter Stmt.is_call

/-! ## The lazy accessors of `config_express.cxx` -/

/-- The function `get_use_high_res_clock`, lines 192-204: the variable is
constructed when the static pointer is `NULL`, and its value is returned. -/
def get_use_high_res_clock (PRC_DESC : String → String)
    (resolve : (T : ValueType) → T.carrier → Value → T.carrier) (p : Process) :
    Except Failure Bool × Process :=
  match p.use_high_res_clock with
  | none =>
    match p.config.declare .bool "use-high-res-clock" true
        (some (PRC_DESC (
          "Set this to false to avoid using the high-precision clock, even if " ++
          "it is available."))) with
    | (.ok h, c) => (.ok (c.read resolve h), { p with config := c, use_high_res_clock := some h })
    | (.error e, c) => (.error e, { p with config := c })
  | some h => (.ok (p.config.read resolve h), p)

/-- The function `get_paranoid_clock`, lines 206-219. -/
def get_paranoid_clock (PRC_DESC : String → String)
    (resolve : (T : ValueType) → T.carrier → Value → T.carrier) (p : Process) :
    Except Failure Bool × Process :=
  match p.paranoid_clock with
  | none =>
    match p.config.declare .bool "paranoid-clock" false
        (some (PRC_DESC (
          "Set this to true to double-check the results of the high-resolution " ++
          "clock against the system clock.  This has no effect if NDEBUG is " ++
          "defined."))) with
    | (.ok h, c) => (.ok (c.read resolve h), { p with config := c, paranoid_clock := some h })
    | (.error e, c) => (.error e, { p with config := c })
  | some h => (.ok (p.config.read resolve h), p)

/-- The function `get_verify_dcast`, lines 221-234. -/
def get_verify_dcast (PRC_DESC : String → String)
    (resolve : (T : ValueType) → T.carrier → Value → T.carrier) (p : Process) :
    Except Failure Bool × Process :=
  match p.verify_dcast with
  | none =>
    match p.config.declare .bool "verify-dcast" true
        (some (PRC_DESC (
          "Set this to true to verify that every attempted DCAST operation in " ++
          "fact references the correct type, or false otherwise.  This has no " ++
          "effect if NDEBUG is defined, in which case it is never tested."))) with
    | (.ok h, c) => (.ok (c.read resolve h), { p with config := c, verify_dcast := some h })
    | (.error e, c) => (.error e, { p with config := c })
  | some h => (.ok (p.config.read resolve h), p)

/-- The results of `n` consecutive calls of an accessor, and the process
afterwards; a failed call ends the sequence. -/
def call_results (f : Process → Except Failure Bool × Process) :
    Nat → Process → List (Except Failure Bool) × Process
  | 0, p => ([], p)
  | n + 1, p =>
    match f p with
    | (.ok v, q) => ((.ok v) :: (call_results f n q).1, (call_results f n q).2)
    | (.error e, q) => ([.error e], q)

/-- An external override arriving while the process runs. -/
def Process.override (key : String) (value : Value) (p : Process) : Process :=
  { p with config := p.config.override key value }

/-- Modelled from the spec: how many entries of the table carry `key`. -/
def ConfigRegistry.declarations_of (r : ConfigRegistry) (key : String) : Nat :=
  r.table.countP (fun e => e.key == key)

/-! ## Programs over the declarations -/

/-- The events by which the keys of `config_express.cxx` get declared: the
static initialiser of the `i`-th static variable (in source order, from 0),
and calls of the three lazy accessors. -/
inductive Op where
  | construct (i : Fin 14)
  | get_use_high_res_clock
  | get_paranoid_clock
  | get_verify_dcast
  deriving DecidableEq, Repr

/-- The `i`-th static variable. -/
def static_variable (PRC_DESC : String → String) (i : Fin 14) : Declaration :=
  (express_declarations PRC_DESC).get ⟨i.val, i.isLt⟩

/-- The static initialiser of a variable, as a step of the process. -/
def construct_static (d : Declaration) (p : Process) : Except Failure Unit × Process :=
  match d.construct p.config with
  | (.ok _, c) => (.ok (), { p with config := c })
  | (.error e, c) => (.error e, { p with config := c })

/-- One event. -/
def Op.step (PRC_DESC : String → String)
    (resolve : (T : ValueType) → T.carrier → Value → T.carrier) (o : Op) (p : Process) :
    Except Failure Unit × Process :=
  match o with
  | .construct i => construct_static (static_variable PRC_DESC i) p
  | .get_use_high_res_clock =>
    ((Panda.get_use_high_res_clock PRC_DESC resolve p).1.map (fun _ => ()),
     (Panda.get_use_high_res_clock PRC_DESC resolve p).2)
  | .get_paranoid_clock =>
    ((Panda.get_paranoid_clock PRC_DESC resolve p).1.map (fun _ => ()),
     (Panda.get_paranoid_clock PRC_DESC resolve p).2)
  | .get_verify_dcast =>
    ((Panda.get_verify_dcast PRC_DESC resolve p).1.map (fun _ => ()),
     (Panda.get_verify_dcast PRC_DESC resolve p).2)

/-- A sequence of events, in order; a failure ends it. -/
def run_ops (PRC_DESC : String → String)
    (resolve : (T : ValueType) → T.carrier → Value → T.carrier) :
    List Op → Process → Except Failure Unit × Process
  | [], p => (.ok (), p)
  | o :: rest, p =>
    match o.step PRC_DESC resolve p with
    | (.ok (), q) => run_ops PRC_DESC resolve rest q
    | (.error e, q) => (.error e, q)

/-- The static variables constructed by a sequence of events. -/
def constructed : List Op → List (Fin 14)
  | [] => []
  | .construct i :: rest => i :: constructed rest
  | _ :: rest => constructed rest

/-- The seventeen keys declared by `config_express.cxx`: those of the
fourteen static variables, then those of the three lazy accessors. -/
def express_keys (PRC_DESC : String → String) : List String :=
  (express_declarations PRC_DESC).map (fun d => d.key)
  ++ ["use-high-res-clock", "paranoid-clock", "verify-dcast"]

/-! ## The key table of the specification -/

/-- The table of configuration keys as the specification lists it (section
6, external interfaces): key, type and default, row by row. -/
def spec_key_table : List (String × ValueType × Value) :=
  [("patchfile-window-size", .int, .int 16),
   ("patchfile-increment-size", .int, .int 8),
   ("patchfile-buffer-size", .int, .int 4096),
   ("patchfile-zone-size", .int, .int 10000),
   ("keep-temporary-files", .bool, .bool false),
   ("encryption-algorithm", .string, .string "bf-cbc"),
   ("encryption-key-length", .int, .int 0),
   ("encryption-iteration-count", .int, .int 100000),
   ("multifile-encryption-iteration-count", .int, .int 0),
   ("vfs-case-sensitive", .bool, .bool true),
   ("vfs-implicit-pz", .bool, .bool true),
   ("use-vfs", .bool, .bool true),
   ("collect-tcp", .bool, .bool false),
   ("collect-tcp-interval", .double, .double 0.2),
   ("use-high-res-clock", .bool, .bool true),
   ("paranoid-clock", .bool, .bool false),
   ("verify-dcast", .bool, .bool true)]

/-- A declaration as a row of the key table. -/
def Declaration.row (d : Declaration) : String × ValueType × Value :=
  (d.key, d.type, Value.of d.type d.default_value)

/-- Widths as the specification states them: 8/16/32/64-bit integers are
1/2/4/8 bytes, 32/64-bit floats are 4/8 bytes. -/
def Platform.widths_match (pf : Platform) : Prop :=
  pf.sizeof_PN_int8 = 1 ∧ pf.sizeof_PN_uint8 = 1 ∧
  pf.sizeof_PN_int16 = 2 ∧ pf.sizeof_PN_uint16 = 2 ∧
  pf.sizeof_PN_int32 = 4 ∧ pf.sizeof_PN_uint32 = 4 ∧
  pf.sizeof_PN_int64 = 8 ∧ pf.sizeof_PN_uint64 = 8 ∧
  pf.sizeof_PN_float32 = 4 ∧ pf.sizeof_PN_float64 = 8

instance (pf : Platform) : Decidable pf.widths_match := by
  unfold Platform.widths_match
  infer_instance

/-- The build flag `WORDS_BIGENDIAN` agrees with the byte order of the
machine. -/
def byte_order_matches (b : Build) (pf : Platform) : Prop :=
  (b.WORDS_BIGENDIAN = true ∧ pf.byte_order = .big) ∨
  (b.WORDS_BIGENDIAN = false ∧ pf.byte_order = .little)

instance (b : Build) (pf : Platform) : Decidable (byte_order_matches b pf) := by
  unfold byte_order_matches
  infer_instance

/-- Whether a statement, if it is an assertion, has a true condition. -/
def Stmt.passes : Stmt → Bool
  | .nassertv _ holds => holds
  | _ => true

/-- The calls into the rest of the engine that the source of
`init_libexpress` lists: the twelve type registrations, the call of
`init_system_type_handles`, and the announcement of zlib when the build has
`HAVE_ZLIB`. -/
def express_registrations (b : Build) : List Stmt :=
  [.init_type "Datagram",
   .init_type "NodeReferenceCount",
   .init_type "ReferenceCount",
   .init_type "TextEncoder",
   .init_type "TypedObject",
   .init_type "TypedReferenceCount",
   .init_type "VirtualFile",
   .init_type "VirtualFileComposite",
   .init_type "VirtualFileMount",
   .init_type "VirtualFileMountMultifile",
   .init_type "VirtualFileMountSystem",
   .init_type "VirtualFileSimple",
   .init_system_type_handles]
  ++ (if b.HAVE_ZLIB then [.add_system "zlib"] else [])

/-- The statements of a list that `run` executes: all of them up to and
including the first assertion whose condition is false. -/
def executed : List Stmt → List Stmt
  | [] => []
  | st :: rest => if st.passes then st :: executed rest else [st]

/-- A sequence of external overrides, applied in order (the head of the list
is written first). -/
def override_all : List (String × Value) → ConfigRegistry → ConfigRegistry
  | [], r => r
  | w :: ws, r => override_all ws (r.override w.1 w.2)

/-- The value written last for `key` in a sequence of overrides, if any. -/
def last_write (key : String) : List (String × Value) → Option Value
  | [] => none
  | w :: ws =>
    match last_write key ws with
    | some v => some v
    | none => if w.1 == key then some w.2 else none

/-- What is claimed of a lazy accessor `acc` with static pointer `ptr`, key
`key`, default `dflt` and description `desc`:

* a call that finds the pointer `NULL` (and the key undeclared) declares the
  key: one entry with this key, default and description is appended to the
  table, nothing else of the registry changes, the pointer is set, and the
  call returns the current value of the variable;
* a call that finds the pointer set changes nothing at all (in particular it
  declares nothing) and returns the current value of the variable the
  pointer refers to;
* in N ≥ 1 consecutive calls starting with the pointer `NULL`, every call
  returns the current value, and the state after the N calls is the state
  after the first;
* with no override of the key, that value is `dflt`. -/
def LazyAccessor (resolve : (T : ValueType) → T.carrier → Value → T.carrier)
    (acc : Process → Except Failure Bool × Process)
    (ptr : Process → Option (Handle .bool)) (key : String) (dflt : Bool)
    (desc : Option String) : Prop :=
  (∀ p, ptr p = none → p.config.is_declared key = false →
    (acc p).1 = .ok (p.config.read resolve ({ key := key, default_value := dflt } : Handle .bool)) ∧
    ptr (acc p).2 = some { key := key, default_value := dflt } ∧
    (acc p).2.config.table =
      p.config.table ++ [{ key := key, default_value := .bool dflt, description := desc }] ∧
    (acc p).2.config.overrides = p.config.overrides) ∧
  (∀ p h, ptr p = some h → acc p = (.ok (p.config.read resolve h), p)) ∧
  (∀ p N, ptr p = none → p.config.is_declared key = false → 1 ≤ N →
    (call_results acc N p).1 =
      List.replicate N
        (.ok (p.config.read resolve ({ key := key, default_value := dflt } : Handle .bool))) ∧
    (call_results acc N p).2 = (acc p).2) ∧
  (∀ p : Process, p.config.overrides.lookup key = none →
    p.config.read resolve ({ key := key, default_value := dflt } : Handle .bool) = dflt)

/-- The keys that are still to be declared are free: the key of every
static variable in `pending` is undeclared, and the key of every lazy
accessor whose static pointer is still `NULL` is undeclared. -/
def keys_free (PRC_DESC : String → String) (p : Process) (pending : List (Fin 14)) : Prop :=
  (∀ i ∈ pending, p.config.is_declared (static_variable PRC_DESC i).key = false) ∧
  (p.use_high_res_clock = none → p.config.is_declared "use-high-res-clock" = false) ∧
  (p.paranoid_clock = none → p.config.is_declared "paranoid-clock" = false) ∧
  (p.verify_dcast = none → p.config.is_declared "verify-dcast" = false)

/-- An event on the registry: a declaration (successful or not) of some key
with some type, default and description, or an external override. -/
inductive RegistryEvent where
  | declare (T : ValueType) (key : String) (default_value : T.carrier)
      (description : Option String)
  | override (key : String) (value : Value)

/-- The registry after one event; a failed declaration leaves it as `declare`
returns it. -/
def apply_event (ev : RegistryEvent) (r : ConfigRegistry) : ConfigRegistry :=
  match ev with
  | .declare T key default_value description => (r.declare T key default_value description).2
  | .override key value => r.override key value

/-- The registry after a sequence of events, in order (the head of the list
happens first). -/
def apply_events : List RegistryEvent → ConfigRegistry → ConfigRegistry
  | [], r => r
  | ev :: evs, r => apply_events evs (apply_event ev r)

/-! ## Lemmas on statement execution -/

theorem exec_config (st : Stmt) (p : Process) : (exec st p).2.config = p.config := by
  cases st with
  | set_initialized m => cases m <;> rfl
  | init_type c => rfl
  | init_system_type_handles => rfl
  | add_system n => rfl
  | nassertv c h => cases h <;> rfl

theorem exec_log (st : Stmt) (p : Process) : (exec st p).2.log = p.log ++ [st] := by
  cases st with
  | set_initialized m => cases m <;> rfl
  | init_type c => rfl
  | init_system_type_handles => rfl
  | add_system n => rfl
  | nassertv c h => cases h <;> rfl

theorem exec_ok_iff (st : Stmt) (p : Process) :
    (exec st p).1 = .ok () ↔ st.passes = true := by
  cases st with
  | set_initialized m => cases m <;> simp [exec, Stmt.passes]
  | init_type c => simp [exec, Stmt.passes]
  | init_system_type_handles => simp [exec, Stmt.passes]
  | add_system n => simp [exec, Stmt.passes]
  | nassertv c h => cases h <;> simp [exec, nassertv, Stmt.passes]

theorem exec_initialized_mono (st : Stmt) (p : Process) (m : Module)
    (h : p.initialized m = true) : (exec st p).2.initialized m = true := by
  cases st with
  | set_initialized m2 => cases m2 <;> cases m <;> simp_all [exec, Process.initialized]
  | init_type c => cases m <;> simp_all [exec, Process.initialized]
  | init_system_type_handles => cases m <;> simp_all [exec, Process.initialized]
  | add_system n => cases m <;> simp_all [exec, Process.initialized]
  | nassertv c h2 => cases h2 <;> cases m <;> simp_all [exec, nassertv, Process.initialized]

theorem exec_set_initialized (m : Module) (p : Process) :
    (exec (.set_initialized m) p).1 = .ok () ∧
    (exec (.set_initialized m) p).2.initialized m = true := by
  cases m <;> simp [exec, Process.initialized]

theorem run_cons_ok (st : Stmt) (rest : List Stmt) (p : Process)
    (h : (exec st p).1 = .ok ()) : run (st :: rest) p = run rest (exec st p).2 := by
  rcases hx : exec st p with ⟨r, q⟩
  rw [hx] at h
  simp only at h
  subst h
  simp [run, hx]

theorem run_cons_error (st : Stmt) (rest : List Stmt) (p : Process)
    (h : (exec st p).1 ≠ .ok ()) : run (st :: rest) p = exec st p := by
  rcases hx : exec st p with ⟨r, q⟩
  rw [hx] at h
  cases r with
  | ok u => exact absurd rfl h
  | error e => simp [run, hx]

theorem run_config (l : List Stmt) (p : Process) : (run l p).2.config = p.config := by
  induction l generalizing p with
  | nil => rfl
  | cons st rest ih =>
    by_cases h : (exec st p).1 = .ok ()
    · rw [run_cons_ok st rest p h, ih, exec_config]
    · rw [run_cons_error st rest p h, exec_config]

theorem run_log (l : List Stmt) (p : Process) : (run l p).2.log = p.log ++ executed l := by
  induction l generalizing p with
  | nil => simp [run, executed]
  | cons st rest ih =>
    by_cases h : (exec st p).1 = .ok ()
    · have hp : st.passes = true := (exec_ok_iff st p).1 h
      rw [run_cons_ok st rest p h, ih, exec_log]
      simp [executed, hp]
    · have hp : ¬ st.passes = true := fun hp => h ((exec_ok_iff st p).2 hp)
      rw [run_cons_error st rest p h, exec_log]
      simp [executed, hp]

theorem run_initialized_mono (l : List Stmt) (p : Process) (m : Module)
    (h : p.initialized m = true) : (run l p).2.initialized m = true := by
  induction l generalizing p with
  | nil => simpa [run] using h
  | cons st rest ih =>
    by_cases hx : (exec st p).1 = .ok ()
    · rw [run_cons_ok st rest p hx]
      exact ih _ (exec_initialized_mono st p m h)
    · rw [run_cons_error st rest p hx]
      exact exec_initialized_mono st p m h

theorem run_set_initialized (m : Module) (rest : List Stmt) (p : Process) :
    (run (.set_initialized m :: rest) p).2.initialized m = true := by
  rw [run_cons_ok _ rest p (exec_set_initialized m p).1]
  exact run_initialized_mono rest _ m (exec_set_initialized m p).2

theorem run_ok_of_passes (l : List Stmt) (p : Process) (h : ∀ st ∈ l, st.passes = true) :
    (run l p).1 = .ok () := by
  induction l generalizing p with
  | nil => rfl
  | cons st rest ih =>
    have hst : (exec st p).1 = .ok () := (exec_ok_iff st p).2 (h st (List.mem_cons_self _ _))
    rw [run_cons_ok st rest p hst]
    exact ih _ (fun s hs => h s (List.mem_cons_of_mem _ hs))

theorem executed_initial (l : List Stmt) : executed l <+: l := by
  induction l with
  | nil => simp [executed]
  | cons st rest ih =>
    by_cases hp : st.passes = true
    · simp only [executed, hp, if_true]
      exact (List.prefix_cons_inj st).2 ih
    · simp only [executed, hp]
      exact ⟨rest, rfl⟩

/-! ## The guarded initialisers -/

theorem init_libexpress_of_initialized (b : Build) (pf : Platform) (p : Process)
    (h : p.express_initialized = true) : init_libexpress b pf p = (.ok (), p) := by
  simp [init_libexpress, h]

theorem init_libexpress_of_uninitialized (b : Build) (pf : Platform) (p : Process)
    (h : p.express_initialized = false) :
    init_libexpress b pf p = run (init_libexpress_stmts b pf) p := by
  simp [init_libexpress, h]

theorem init_libkeyvalues_of_uninitialized (p : Process)
    (h : p.keyvalues_initialized = false) :
    init_libkeyvalues p = run init_libkeyvalues_stmts p := by
  simp [init_libkeyvalues, h]

theorem init_libkeyvalues_of_initialized (p : Process)
    (h : p.keyvalues_initialized = true) : init_libkeyvalues p = (.ok (), p) := by
  simp [init_libkeyvalues, h]

theorem init_libexpress_stmts_eq (b : Build) (pf : Platform) :
    init_libexpress_stmts b pf =
      .set_initialized .express :: (express_registrations b ++ assertions b pf) := by
  simp [init_libexpress_stmts, express_registrations]

theorem init_libexpress_initialized (b : Build) (pf : Platform) (p : Process) :
    (init_libexpress b pf p).2.express_initialized = true := by
  by_cases h : p.express_initialized = true
  · rw [init_libexpress_of_initialized b pf p h]
    exact h
  · simp only [init_libexpress, h]
    rw [init_libexpress_stmts_eq]
    exact run_set_initialized .express _ p

theorem init_libkeyvalues_initialized (p : Process) :
    (init_libkeyvalues p).2.keyvalues_initialized = true := by
  by_cases h : p.keyvalues_initialized = true
  · rw [init_libkeyvalues_of_initialized p h]
    exact h
  · simp only [init_libkeyvalues, h]
    exact run_set_initialized .keyvalues _ p

/-- Once the guard of `f` holds and `f` returns at the guard, further calls
change nothing. -/
theorem call_n_fixed (f : Process → Except Failure Unit × Process) (q : Process)
    (h : f q = (.ok (), q)) (n : Nat) : call_n f n q = (.ok (), q) := by
  induction n with
  | zero => rfl
  | succ n ih => simp [call_n, h, ih]

theorem call_n_succ_of_fixed (f : Process → Except Failure Unit × Process) (p : Process)
    (h : f (f p).2 = (.ok (), (f p).2)) (n : Nat) : call_n f (n + 1) p = f p := by
  rcases hx : f p with ⟨r, q⟩
  rw [hx] at h
  cases r with
  | ok u => simp [call_n, hx, call_n_fixed f q h n]
  | error e => simp [call_n, hx]

theorem count_executed_le (x : Stmt) (l : List Stmt) :
    (executed l).count x ≤ l.count x :=
  (executed_initial l).sublist.count_le x

theorem count_set_initialized_assertions (m : Module) (b : Build) (pf : Platform) :
    (assertions b pf).count (.set_initialized m) = 0 := by
  cases hb : b.NDEBUG <;> cases hw : b.WORDS_BIGENDIAN <;>
    simp [assertions, width_assertions, endian_assertion, hb, hw]

theorem count_set_initialized_registrations (m : Module) (b : Build) :
    (express_registrations b).count (.set_initialized m) = 0 := by
  cases hz : b.HAVE_ZLIB <;> simp [express_registrations, hz]

theorem body_runs_run_express (b : Build) (pf : Platform) (p : Process) :
    body_runs .express (run (init_libexpress_stmts b pf) p).2 = body_runs .express p + 1 := by
  have h0 : (express_registrations b ++ assertions b pf).count (.set_initialized .express) = 0 := by
    rw [List.count_append, count_set_initialized_registrations,
      count_set_initialized_assertions]
  have h1 := count_executed_le (.set_initialized .express)
    (express_registrations b ++ assertions b pf)
  rw [h0] at h1
  rw [body_runs, body_runs, run_log, init_libexpress_stmts_eq]
  generalize express_registrations b ++ assertions b pf = rest at h1
  have hex : executed (.set_initialized .express :: rest) =
      .set_initialized .express :: executed rest := by
    simp [executed, Stmt.passes]
  rw [hex, List.count_append, List.count_cons_self]
  omega

theorem body_runs_run_keyvalues (p : Process) :
    body_runs .keyvalues (run init_libkeyvalues_stmts p).2 = body_runs .keyvalues p + 1 := by
  simp [body_runs, run_log, init_libkeyvalues_stmts, executed, Stmt.passes]

/-- Claim C1: for both entry points and every N ≥ 1, N calls in a row from a
state in which the module is not initialised leave exactly the outcome and
state of a single call, and the statements after the guard are entered
exactly once (one more time than before the calls). -/
theorem init_n_calls_same_as_one_C1 (b : Build) (pf : Platform) (p : Process) (N : Nat)
    (hN : 1 ≤ N) :
    (p.express_initialized = false →
      call_n (init_libexpress b pf) N p = init_libexpress b pf p ∧
      body_runs .express (call_n (init_libexpress b pf) N p).2 = body_runs .express p + 1) ∧
    (p.keyvalues_initialized = false →
      call_n init_libkeyvalues N p = init_libkeyvalues p ∧
      body_runs .keyvalues (call_n init_libkeyvalues N p).2 = body_runs .keyvalues p + 1) := by
  obtain ⟨n, rfl⟩ : ∃ n, N = n + 1 := ⟨N - 1, by omega⟩
  constructor
  · intro h
    have hfix := init_libexpress_of_initialized b pf _ (init_libexpress_initialized b pf p)
    have hcall := call_n_succ_of_fixed (init_libexpress b pf) p hfix n
    refine ⟨hcall, ?_⟩
    rw [hcall]
    simp only [init_libexpress, h]
    exact body_runs_run_express b pf p
  · intro h
    have hfix := init_libkeyvalues_of_initialized _ (init_libkeyvalues_initialized p)
    have hcall := call_n_succ_of_fixed init_libkeyvalues p hfix n
    refine ⟨hcall, ?_⟩
    rw [hcall]
    simp only [init_libkeyvalues, h]
    exact body_runs_run_keyvalues p

theorem init_n_calls_same_as_one_C1_witness :
    1 ≤ 3 ∧
    call_n (init_libexpress ⟨true, false, false⟩ ⟨1, 1, 2, 2, 4, 4, 8, 8, 4, 8, .little⟩) 3
        (Process.start []) =
      init_libexpress ⟨true, false, false⟩ ⟨1, 1, 2, 2, 4, 4, 8, 8, 4, 8, .little⟩
        (Process.start []) ∧
    body_runs .keyvalues (call_n init_libkeyvalues 3 (Process.start [])).2 = 1 :=
  ⟨by decide,
   ((init_n_calls_same_as_one_C1 ⟨true, false, false⟩ ⟨1, 1, 2, 2, 4, 4, 8, 8, 4, 8, .little⟩
      (Process.start []) 3 (by decide)).1 rfl).1,
   ((init_n_calls_same_as_one_C1 ⟨true, false, false⟩ ⟨1, 1, 2, 2, 4, 4, 8, 8, 4, 8, .little⟩
      (Process.start []) 3 (by decide)).2 rfl).2⟩

theorem executed_append_of_passes (l1 l2 : List Stmt) (h : ∀ st ∈ l1, st.passes = true) :
    executed (l1 ++ l2) = l1 ++ executed l2 := by
  induction l1 with
  | nil => rfl
  | cons st rest ih =>
    have hst : st.passes = true := h st (List.mem_cons_self _ _)
    rw [List.cons_append]
    show (if st.passes then st :: executed (rest ++ l2) else [st]) = _
    rw [if_pos hst, ih (fun s hs => h s (List.mem_cons_of_mem _ hs))]
    rfl

theorem express_registrations_passes (b : Build) :
    ∀ st ∈ express_registrations b, st.passes = true := by
  cases hz : b.HAVE_ZLIB <;> simp [express_registrations, hz, Stmt.passes]

theorem express_registrations_calls (b : Build) :
    (express_registrations b).filter Stmt.is_call = express_registrations b := by
  cases hz : b.HAVE_ZLIB <;> simp [express_registrations, hz, Stmt.is_call]

theorem assertions_no_calls (b : Build) (pf : Platform) :
    (assertions b pf).filter Stmt.is_call = [] := by
  cases hb : b.NDEBUG <;> cases hw : b.WORDS_BIGENDIAN <;>
    simp [assertions, width_assertions, endian_assertion, hb, hw, Stmt.is_call]

theorem executed_assertions_no_calls (b : Build) (pf : Platform) :
    (executed (assertions b pf)).filter Stmt.is_call = [] := by
  have h := (executed_initial (assertions b pf)).sublist.filter Stmt.is_call
  rw [assertions_no_calls] at h
  exact List.eq_nil_of_sublist_nil h

theorem registrations_run_express (b : Build) (pf : Platform) (p : Process) :
    registrations (run (init_libexpress_stmts b pf) p).2 =
      registrations p ++ express_registrations b := by
  rw [registrations, registrations, run_log, init_libexpress_stmts_eq]
  have hex : executed (.set_initialized .express ::
      (express_registrations b ++ assertions b pf)) =
      .set_initialized .express :: (express_registrations b ++ executed (assertions b pf)) := by
    rw [← executed_append_of_passes _ _ (express_registrations_passes b)]
    simp [executed, Stmt.passes]
  rw [hex, List.filter_append, List.filter_cons_of_neg (by simp [Stmt.is_call]),
    List.filter_append, express_registrations_calls, executed_assertions_no_calls,
    List.append_nil]

/-- Claim C8: a call of `init_libexpress` that finds the flag false makes
exactly these calls into the rest of the engine, in this order: `init_type`
of Datagram, NodeReferenceCount, ReferenceCount, TextEncoder, TypedObject,
TypedReferenceCount, VirtualFile, VirtualFileComposite, VirtualFileMount,
VirtualFileMountMultifile, VirtualFileMountSystem, VirtualFileSimple, then
`init_system_type_handles`, then `add_system "zlib"` if and only if the build
has `HAVE_ZLIB`; nothing else is registered, and no call occurs twice. -/
theorem first_init_registers_fixed_set_C8 (b : Build) (pf : Platform) (p : Process)
    (h : p.express_initialized = false) :
    registrations (init_libexpress b pf p).2 =
      registrations p ++
        ((["Datagram", "NodeReferenceCount", "ReferenceCount", "TextEncoder", "TypedObject",
           "TypedReferenceCount", "VirtualFile", "VirtualFileComposite", "VirtualFileMount",
           "VirtualFileMountMultifile", "VirtualFileMountSystem",
           "VirtualFileSimple"].map Stmt.init_type)
         ++ [Stmt.init_system_type_handles]
         ++ (if b.HAVE_ZLIB then [Stmt.add_system "zlib"] else [])) ∧
    ((["Datagram", "NodeReferenceCount", "ReferenceCount", "TextEncoder", "TypedObject",
           "TypedReferenceCount", "VirtualFile", "VirtualFileComposite", "VirtualFileMount",
           "VirtualFileMountMultifile", "VirtualFileMountSystem",
           "VirtualFileSimple"].map Stmt.init_type)
         ++ [Stmt.init_system_type_handles]
         ++ (if b.HAVE_ZLIB then [Stmt.add_system "zlib"] else [])).Nodup := by
  constructor
  · rw [init_libexpress_of_uninitialized b pf p h, registrations_run_express]
    simp [express_registrations]
  · cases hz : b.HAVE_ZLIB <;> simp

theorem first_init_registers_fixed_set_C8_witness :
    (Process.start []).express_initialized = false ∧
    registrations (init_libexpress ⟨true, false, false⟩
        ⟨1, 1, 2, 2, 4, 4, 8, 8, 4, 8, .little⟩ (Process.start [])).2 =
      registrations (Process.start []) ++
        ((["Datagram", "NodeReferenceCount", "ReferenceCount", "TextEncoder", "TypedObject",
           "TypedReferenceCount", "VirtualFile", "VirtualFileComposite", "VirtualFileMount",
           "VirtualFileMountMultifile", "VirtualFileMountSystem",
           "VirtualFileSimple"].map Stmt.init_type)
         ++ [Stmt.init_system_type_handles]
         ++ (if (⟨true, false, false⟩ : Build).HAVE_ZLIB then [Stmt.add_system "zlib"] else [])) :=
  ⟨rfl, (first_init_registers_fixed_set_C8 ⟨true, false, false⟩
      ⟨1, 1, 2, 2, 4, 4, 8, 8, 4, 8, .little⟩ (Process.start []) rfl).1⟩

/-! ## The assertions of `init_libexpress` -/

theorem memcpy_word_little : memcpy_word .little [1, 2, 3, 4] = 0x04030201 := by decide

theorem memcpy_word_big : memcpy_word .big [1, 2, 3, 4] = 0x01020304 := by decide

theorem memcpy_word_pdp : memcpy_word .pdp [1, 2, 3, 4] = 0x02010403 := by decide

theorem endian_assertion_passes_eq (b : Build) (pf : Platform) :
    (endian_assertion b pf).passes =
      (memcpy_word pf.byte_order [1, 2, 3, 4] ==
        if b.WORDS_BIGENDIAN then 0x01020304 else 0x04030201) := by
  unfold endian_assertion
  cases b.WORDS_BIGENDIAN <;> rfl

theorem endian_assertion_passes_iff (b : Build) (pf : Platform) :
    (endian_assertion b pf).passes = true ↔ byte_order_matches b pf := by
  rw [endian_assertion_passes_eq, byte_order_matches]
  cases hw : b.WORDS_BIGENDIAN <;> cases ho : pf.byte_order <;>
    simp [memcpy_word_little, memcpy_word_big, memcpy_word_pdp]

theorem width_assertions_pass_iff (pf : Platform) :
    (∀ st ∈ width_assertions pf, st.passes = true) ↔ pf.widths_match := by
  simp [width_assertions, Stmt.passes, Platform.widths_match, and_assoc]

theorem assertions_pass (b : Build) (pf : Platform) (hw : pf.widths_match)
    (ho : byte_order_matches b pf) : ∀ st ∈ assertions b pf, st.passes = true := by
  intro st hst
  unfold assertions at hst
  split at hst
  · simp at hst
  · rcases List.mem_append.1 hst with h | h
    · exact (width_assertions_pass_iff pf).2 hw st h
    · rw [List.mem_singleton.1 h]
      exact (endian_assertion_passes_iff b pf).2 ho

/-- Claim C9: the word filled from the bytes 1, 2, 3, 4 is 0x04030201 on a
little-endian machine and 0x01020304 on a big-endian one; the assertion
selected by `WORDS_BIGENDIAN` has a true condition if and only if the flag
agrees with the byte order of the machine; the six width assertions all hold
if and only if the widths are 1, 1, 2, 2, 4, 4, 8, 8, 4, 8 bytes; and on a
platform whose widths and byte order match, every statement of the body has
a true condition and every call of `init_libexpress` ends without a failed
assertion. -/
theorem byte_order_check_correct_C9 (b : Build) (pf : Platform) (p : Process) :
    memcpy_word .little [1, 2, 3, 4] = 0x04030201 ∧
    memcpy_word .big [1, 2, 3, 4] = 0x01020304 ∧
    ((endian_assertion b pf).passes = true ↔ byte_order_matches b pf) ∧
    ((∀ st ∈ width_assertions pf, st.passes = true) ↔ pf.widths_match) ∧
    (pf.widths_match → byte_order_matches b pf →
      (∀ st ∈ init_libexpress_stmts b pf, st.passes = true) ∧
      (init_libexpress b pf p).1 = .ok ()) := by
  refine ⟨memcpy_word_little, memcpy_word_big, endian_assertion_passes_iff b pf,
    width_assertions_pass_iff pf, ?_⟩
  intro hw ho
  have hall : ∀ st ∈ init_libexpress_stmts b pf, st.passes = true := by
    intro st hst
    rw [init_libexpress_stmts_eq] at hst
    rcases List.mem_cons.1 hst with h | h
    · rw [h]
      rfl
    · rcases List.mem_append.1 h with h2 | h2
      · exact express_registrations_passes b st h2
      · exact assertions_pass b pf hw ho st h2
  refine ⟨hall, ?_⟩
  by_cases hi : p.express_initialized = true
  · rw [init_libexpress_of_initialized b pf p hi]
  · rw [init_libexpress_of_uninitialized b pf p (by simpa using hi)]
    exact run_ok_of_passes _ p hall

theorem byte_order_check_correct_C9_witness :
    (⟨1, 1, 2, 2, 4, 4, 8, 8, 4, 8, .big⟩ : Platform).widths_match ∧
    byte_order_matches ⟨false, true, false⟩ ⟨1, 1, 2, 2, 4, 4, 8, 8, 4, 8, .big⟩ ∧
    (init_libexpress ⟨false, true, false⟩ ⟨1, 1, 2, 2, 4, 4, 8, 8, 4, 8, .big⟩
      (Process.start [])).1 = .ok () :=
  ⟨by decide, by decide,
   ((byte_order_check_correct_C9 ⟨false, true, false⟩ ⟨1, 1, 2, 2, 4, 4, 8, 8, 4, 8, .big⟩
      (Process.start [])).2.2.2.2 (by decide) (by decide)).2⟩

/-! ## The configuration registry -/

theorem Value.as_of (T : ValueType) (x : T.carrier) : (Value.of T x).as T = some x := by
  cases T <;> rfl

theorem declare_of_not_declared (T : ValueType) (key : String) (dflt : T.carrier)
    (desc : Option String) (r : ConfigRegistry) (h : r.is_declared key = false) :
    r.declare T key dflt desc =
      (.ok { key := key, default_value := dflt },
       { r with table := r.table ++ [{ key := key, default_value := Value.of T dflt,
                                       description := desc }] }) := by
  simp [ConfigRegistry.declare, h]

theorem declare_of_declared (T : ValueType) (key : String) (dflt : T.carrier)
    (desc : Option String) (r : ConfigRegistry) (h : r.is_declared key = true) :
    r.declare T key dflt desc = (.error (.DuplicateKeyError key), r) := by
  simp [ConfigRegistry.declare, h]

theorem declare_overrides (T : ValueType) (key : String) (dflt : T.carrier)
    (desc : Option String) (r : ConfigRegistry) :
    (r.declare T key dflt desc).2.overrides = r.overrides := by
  unfold ConfigRegistry.declare
  split <;> rfl

theorem is_declared_declare (T : ValueType) (key : String) (dflt : T.carrier)
    (desc : Option String) (r : ConfigRegistry) (k : String) :
    (r.declare T key dflt desc).2.is_declared k = (r.is_declared k || key == k) := by
  unfold ConfigRegistry.declare
  split
  · rename_i h
    by_cases hk : key = k
    · subst hk
      simp [h]
    · simp [hk]
  · simp [ConfigRegistry.is_declared]

theorem read_congr (resolve : (T : ValueType) → T.carrier → Value → T.carrier)
    {T : ValueType} (c1 c2 : ConfigRegistry) (h : Handle T)
    (ho : c1.overrides = c2.overrides) : c1.read resolve h = c2.read resolve h := by
  simp [ConfigRegistry.read, ho]

theorem read_of_no_override (resolve : (T : ValueType) → T.carrier → Value → T.carrier)
    {T : ValueType} (c : ConfigRegistry) (h : Handle T)
    (ho : c.overrides.lookup h.key = none) : c.read resolve h = h.default_value := by
  simp [ConfigRegistry.read, ho]

theorem read_of_override (resolve : (T : ValueType) → T.carrier → Value → T.carrier)
    {T : ValueType} (c : ConfigRegistry) (h : Handle T) (x : T.carrier)
    (ho : c.overrides.lookup h.key = some (Value.of T x)) : c.read resolve h = x := by
  simp [ConfigRegistry.read, ho, Value.as_of]

theorem lookup_filter_ne (key k : String) (l : List (String × Value)) (hk : k ≠ key) :
    (l.filter (fun kv => !(kv.1 == k))).lookup key = l.lookup key := by
  induction l with
  | nil => rfl
  | cons w ws ih =>
    rcases w with ⟨a, v⟩
    by_cases ha : a = k
    · subst ha
      have hne : (key == a) = false := by simpa using fun h => hk h.symm
      simp [List.filter, List.lookup, hne, ih]
    · have hf : (!(a == k)) = true := by simpa using ha
      simp only [List.filter, hf]
      by_cases hka : key = a
      · subst hka
        simp [List.lookup]
      · have hne : (key == a) = false := by simpa using hka
        simp [List.lookup, hne, ih]

theorem lookup_override (key : String) (v : Value) (r : ConfigRegistry) (k : String) :
    (r.override key v).overrides.lookup k =
      if key == k then some v else r.overrides.lookup k := by
  by_cases hk : key = k
  · subst hk
    simp [ConfigRegistry.override, List.lookup]
  · have hne : (k == key) = false := by simpa using fun h => hk h.symm
    have hne2 : (key == k) = false := by simpa using hk
    simp only [ConfigRegistry.override, List.lookup, hne, hne2]
    exact lookup_filter_ne k key r.overrides hk

theorem override_table (key : String) (v : Value) (r : ConfigRegistry) :
    (r.override key v).table = r.table := rfl

theorem override_all_table (ws : List (String × Value)) (r : ConfigRegistry) :
    (override_all ws r).table = r.table := by
  induction ws generalizing r with
  | nil => rfl
  | cons w ws ih => rw [override_all, ih, override_table]

theorem override_all_is_declared (ws : List (String × Value)) (r : ConfigRegistry)
    (k : String) : (override_all ws r).is_declared k = r.is_declared k := by
  simp [ConfigRegistry.is_declared, override_all_table]

theorem lookup_override_all (ws : List (String × Value)) (r : ConfigRegistry) (k : String) :
    (override_all ws r).overrides.lookup k =
      match last_write k ws with
      | some v => some v
      | none => r.overrides.lookup k := by
  induction ws generalizing r with
  | nil => rfl
  | cons w ws ih =>
    rw [override_all, ih, last_write]
    cases hl : last_write k ws with
    | some v => rfl
    | none =>
      simp only [lookup_override]
      split <;> rfl

theorem last_write_append (k : String) (ws1 ws2 : List (String × Value)) :
    last_write k (ws1 ++ ws2) =
      match last_write k ws2 with
      | some v => some v
      | none => last_write k ws1 := by
  induction ws1 with
  | nil => cases h : last_write k ws2 <;> simp [last_write, h]
  | cons w ws ih =>
    rw [List.cons_append, last_write, ih]
    cases h : last_write k ws2 with
    | some v => rfl
    | none => simp [last_write]

theorem find_declare_of_not_declared (T : ValueType) (key : String) (dflt : T.carrier)
    (desc : Option String) (r : ConfigRegistry) (h : r.is_declared key = false) :
    (r.declare T key dflt desc).2.find key =
      some { key := key, default_value := Value.of T dflt, description := desc } := by
  rw [declare_of_not_declared T key dflt desc r h]
  simp only [ConfigRegistry.find]
  have hnone : r.table.find? (fun e => e.key == key) = none := by
    simp only [ConfigRegistry.is_declared] at h
    rw [List.find?_eq_none]
    intro e he
    have := List.any_eq_false.1 h e he
    simpa using this
  simp [List.find?_append, hnone]

theorem declarations_of_declare_of_not_declared (T : ValueType) (key : String)
    (dflt : T.carrier) (desc : Option String) (r : ConfigRegistry)
    (h : r.is_declared key = false) :
    (r.declare T key dflt desc).2.declarations_of key = 1 := by
  rw [declare_of_not_declared T key dflt desc r h]
  simp only [ConfigRegistry.declarations_of, ConfigRegistry.is_declared] at h ⊢
  have h0 : r.table.countP (fun e => e.key == key) = 0 := by
    rw [List.countP_eq_zero]
    intro e he
    have := List.any_eq_false.1 h e he
    simpa using this
  simp [List.countP_append, h0]

/-- Claim C2: the fourteen static declarations of `config_express.cxx`
carry, row by row, the key, the type and the default of the first fourteen
rows of the key table of the specification; and for each of them,
constructing the variable in a registry in which its key is neither declared
nor overridden succeeds, and reading the variable right afterwards returns
the declared default. -/
theorem static_defaults_read_back_C2 (PRC_DESC : String → String)
    (resolve : (T : ValueType) → T.carrier → Value → T.carrier) :
    (express_declarations PRC_DESC).map Declaration.row = spec_key_table.take 14 ∧
    ∀ d ∈ express_declarations PRC_DESC, ∀ r : ConfigRegistry,
      r.is_declared d.key = false → r.overrides.lookup d.key = none →
      ∃ h : Handle d.type, (d.construct r).1 = .ok h ∧
        (d.construct r).2.read resolve h = d.default_value := by
  constructor
  · rfl
  · intro d _ r hd ho
    refine ⟨{ key := d.key, default_value := d.default_value }, ?_, ?_⟩
    · rw [Declaration.construct, declare_of_not_declared _ _ _ _ r hd]
    · apply read_of_no_override
      rw [Declaration.construct, declare_overrides]
      exact ho

theorem static_defaults_read_back_C2_witness :
    (ConfigRegistry.initial []).is_declared (encryption_iteration_count id).key = false ∧
    (ConfigRegistry.initial []).overrides.lookup (encryption_iteration_count id).key = none ∧
    ∃ h : Handle (encryption_iteration_count id).type,
      ((encryption_iteration_count id).construct (ConfigRegistry.initial [])).1 = .ok h ∧
      ((encryption_iteration_count id).construct (ConfigRegistry.initial [])).2.read
        (fun _ d _ => d) h = (100000 : Int) :=
  ⟨rfl, rfl,
   (static_defaults_read_back_C2 id (fun _ d _ => d)).2 (encryption_iteration_count id)
     (by simp [express_declarations]) (ConfigRegistry.initial []) rfl rfl⟩

/-- Claim C5: let a key be declared with any type, default and description
in a registry in which it was not declared, let any overrides be written
before the declaration and any after it, and let the last value written for
the key, among all of them, be a value x of the key's type.  Then the
declaration succeeds and reading the variable returns x, whether that last
write came before the declaration or after it. -/
theorem override_value_is_read_C5 (resolve : (T : ValueType) → T.carrier → Value → T.carrier)
    (T : ValueType) (key : String) (dflt : T.carrier) (desc : Option String)
    (r : ConfigRegistry) (before after : List (String × Value)) (x : T.carrier)
    (hd : r.is_declared key = false)
    (hlast : last_write key (before ++ after) = some (Value.of T x)) :
    ∃ h : Handle T, ((override_all before r).declare T key dflt desc).1 = .ok h ∧
      (override_all after ((override_all before r).declare T key dflt desc).2).read
        resolve h = x := by
  have hd2 : (override_all before r).is_declared key = false := by
    rw [override_all_is_declared]
    exact hd
  refine ⟨{ key := key, default_value := dflt }, ?_, ?_⟩
  · rw [declare_of_not_declared _ _ _ _ _ hd2]
  · apply read_of_override
    rw [lookup_override_all, declare_overrides, lookup_override_all]
    rw [last_write_append] at hlast
    cases ha : last_write key after with
    | some v =>
      rw [ha] at hlast
      simpa using hlast
    | none =>
      rw [ha] at hlast
      simp only at hlast
      simp only [hlast]

theorem override_value_is_read_C5_witness :
    (ConfigRegistry.initial []).is_declared "collect-tcp" = false ∧
    last_write "collect-tcp"
      ([("collect-tcp", Value.bool false)] ++
       [("use-vfs", Value.bool false), ("collect-tcp", Value.of .bool true)]) =
      some (Value.of .bool true) ∧
    ∃ h : Handle .bool,
      ((override_all [("collect-tcp", Value.bool false)]
        (ConfigRegistry.initial [])).declare .bool "collect-tcp" false none).1 = .ok h ∧
      (override_all [("use-vfs", Value.bool false), ("collect-tcp", Value.of .bool true)]
        ((override_all [("collect-tcp", Value.bool false)]
          (ConfigRegistry.initial [])).declare .bool "collect-tcp" false none).2).read
        (fun _ d _ => d) h = true :=
  ⟨rfl, rfl,
   override_value_is_read_C5 (fun _ d _ => d) .bool "collect-tcp" false none
     (ConfigRegistry.initial []) [("collect-tcp", Value.bool false)]
     [("use-vfs", Value.bool false), ("collect-tcp", Value.of .bool true)] true rfl rfl⟩

theorem find_of_is_declared (r : ConfigRegistry) (key : String)
    (h : r.is_declared key = true) : ∃ e, r.find key = some e ∧ e.key = key := by
  simp only [ConfigRegistry.is_declared, List.any_eq_true] at h
  obtain ⟨x, hx, hk⟩ := h
  cases hf : r.table.find? (fun e => e.key == key) with
  | none =>
    rw [List.find?_eq_none] at hf
    exact absurd hk (hf x hx)
  | some e =>
    refine ⟨e, hf, ?_⟩
    have := List.find?_some hf
    simpa using this

theorem is_declared_of_find (r : ConfigRegistry) (key : String) (e : ConfigEntry)
    (h : r.find key = some e) : r.is_declared key = true := by
  simp only [ConfigRegistry.find] at h
  simp only [ConfigRegistry.is_declared, List.any_eq_true]
  have hk : (e.key == key) = true := by
    have := List.find?_some h
    simpa using this
  exact ⟨e, List.mem_of_find?_eq_some h, hk⟩

theorem find_declare_of_find (T : ValueType) (k : String) (dflt : T.carrier)
    (desc : Option String) (r : ConfigRegistry) (key : String) (e : ConfigEntry)
    (h : r.find key = some e) : (r.declare T k dflt desc).2.find key = some e := by
  unfold ConfigRegistry.declare
  split
  · exact h
  · simp only [ConfigRegistry.find] at h ⊢
    simp [List.find?_append, h]

theorem declarations_of_declare_of_declared (T : ValueType) (k : String) (dflt : T.carrier)
    (desc : Option String) (r : ConfigRegistry) (key : String)
    (h : r.is_declared key = true) :
    (r.declare T k dflt desc).2.declarations_of key = r.declarations_of key := by
  unfold ConfigRegistry.declare
  split
  · rfl
  · rename_i hk
    have hne : (k == key) = false := by
      cases hkk : (k == key) with
      | false => rfl
      | true =>
        have : k = key := by simpa using hkk
        rw [this] at hk
        exact absurd h hk
    simp [ConfigRegistry.declarations_of, List.countP_append, hne]

theorem apply_event_keeps_entry (ev : RegistryEvent) (r : ConfigRegistry) (key : String)
    (e : ConfigEntry) (n : Nat) (hf : r.find key = some e) (hc : r.declarations_of key = n) :
    (apply_event ev r).find key = some e ∧ (apply_event ev r).declarations_of key = n := by
  cases ev with
  | declare T k dflt desc =>
    exact ⟨find_declare_of_find T k dflt desc r key e hf,
      (declarations_of_declare_of_declared T k dflt desc r key
        (is_declared_of_find r key e hf)).trans hc⟩
  | override k v => exact ⟨hf, hc⟩

theorem apply_events_keeps_entry (evs : List RegistryEvent) (r : ConfigRegistry)
    (key : String) (e : ConfigEntry) (n : Nat) (hf : r.find key = some e)
    (hc : r.declarations_of key = n) :
    (apply_events evs r).find key = some e ∧ (apply_events evs r).declarations_of key = n := by
  induction evs generalizing r with
  | nil => exact ⟨hf, hc⟩
  | cons ev evs ih =>
    obtain ⟨h1, h2⟩ := apply_event_keeps_entry ev r key e n hf hc
    exact ih (apply_event ev r) h1 h2

/-- Claim C6: in any registry in which a key is already declared (wherever
its entry stands in the table), a declaration of that key, with any type,
default and description, fails with `DuplicateKeyError` and leaves the
registry as it was: the entry found under the key is the same as before, the
number of entries of the key is the same, and every variable reads the same
value as before the failed declaration.  Moreover, if the registry arose from
a first declaration of the key (where it was not declared) followed by any
sequence of declarations of any keys and overrides, then after the failed
declaration the entry of the key still carries the first declaration's
default and description, and the key has exactly one entry. -/
theorem redeclaration_fails_C6 (resolve : (T : ValueType) → T.carrier → Value → T.carrier)
    (key : String) (T2 : ValueType) (dflt2 : T2.carrier) (desc2 : Option String)
    (r : ConfigRegistry) (hd : r.is_declared key = true) :
    (r.declare T2 key dflt2 desc2).1 = .error (.DuplicateKeyError key) ∧
    (r.declare T2 key dflt2 desc2).2 = r ∧
    (∃ e, r.find key = some e ∧ e.key = key ∧
      (r.declare T2 key dflt2 desc2).2.find key = some e) ∧
    (r.declare T2 key dflt2 desc2).2.declarations_of key = r.declarations_of key ∧
    (∀ (T : ValueType) (h : Handle T),
      (r.declare T2 key dflt2 desc2).2.read resolve h = r.read resolve h) ∧
    (∀ (T : ValueType) (dflt : T.carrier) (desc : Option String) (r0 : ConfigRegistry)
      (evs : List RegistryEvent), r0.is_declared key = false →
      r = apply_events evs (r0.declare T key dflt desc).2 →
      (r.declare T2 key dflt2 desc2).2.find key =
        some { key := key, default_value := Value.of T dflt, description := desc } ∧
      (r.declare T2 key dflt2 desc2).2.declarations_of key = 1) := by
  have hfail := declare_of_declared T2 key dflt2 desc2 r hd
  obtain ⟨e, he, hek⟩ := find_of_is_declared r key hd
  refine ⟨?_, ?_, ⟨e, he, hek, ?_⟩, ?_, ?_, ?_⟩
  · rw [hfail]
  · rw [hfail]
  · rw [hfail]
    exact he
  · rw [hfail]
  · intro T h
    rw [hfail]
  · intro T dflt desc r0 evs h0 hr
    rw [hfail]
    simp only
    rw [hr]
    exact apply_events_keeps_entry evs _ key _ 1
      (find_declare_of_not_declared T key dflt desc r0 h0)
      (declarations_of_declare_of_not_declared T key dflt desc r0 h0)

theorem redeclaration_fails_C6_witness :
    (apply_events
      [.declare .bool "use-vfs" true none, .override "collect-tcp" (.bool true),
       .declare .int "collect-tcp" (3 : Int) none, .declare .double "collect-tcp-interval"
         (0.2 : Float) none]
      ((ConfigRegistry.initial []).declare .bool "collect-tcp" false
        (some "first")).2).is_declared "collect-tcp" = true ∧
    ((apply_events
      [.declare .bool "use-vfs" true none, .override "collect-tcp" (.bool true),
       .declare .int "collect-tcp" (3 : Int) none, .declare .double "collect-tcp-interval"
         (0.2 : Float) none]
      ((ConfigRegistry.initial []).declare .bool "collect-tcp" false
        (some "first")).2).declare .int "collect-tcp" (7 : Int) (some "again")).1 =
      .error (.DuplicateKeyError "collect-tcp") ∧
    ((apply_events
      [.declare .bool "use-vfs" true none, .override "collect-tcp" (.bool true),
       .declare .int "collect-tcp" (3 : Int) none, .declare .double "collect-tcp-interval"
         (0.2 : Float) none]
      ((ConfigRegistry.initial []).declare .bool "collect-tcp" false
        (some "first")).2).declare .int "collect-tcp" (7 : Int) (some "again")).2.find
        "collect-tcp" =
      some { key := "collect-tcp", default_value := .bool false, description := some "first" } :=
  ⟨rfl,
   (redeclaration_fails_C6 (fun _ d _ => d) "collect-tcp" .int (7 : Int) (some "again")
      (apply_events
        [.declare .bool "use-vfs" true none, .override "collect-tcp" (.bool true),
         .declare .int "collect-tcp" (3 : Int) none, .declare .double "collect-tcp-interval"
           (0.2 : Float) none]
        ((ConfigRegistry.initial []).declare .bool "collect-tcp" false (some "first")).2) rfl).1,
   ((redeclaration_fails_C6 (fun _ d _ => d) "collect-tcp" .int (7 : Int) (some "again")
      (apply_events
        [.declare .bool "use-vfs" true none, .override "collect-tcp" (.bool true),
         .declare .int "collect-tcp" (3 : Int) none, .declare .double "collect-tcp-interval"
           (0.2 : Float) none]
        ((ConfigRegistry.initial []).declare .bool "collect-tcp" false (some "first")).2) rfl).2.2.2.2.2 .bool false (some "first") (ConfigRegistry.initial []) _ rfl rfl).1⟩

/-! ## The lazy accessors -/

theorem call_results_fixed (acc : Process → Except Failure Bool × Process) (q : Process)
    (v : Bool) (h : acc q = (.ok v, q)) (n : Nat) :
    call_results acc n q = (List.replicate n (.ok v), q) := by
  induction n with
  | zero => rfl
  | succ n ih => simp [call_results, h, ih, List.replicate_succ]

theorem lazy_accessor_of_steps (resolve : (T : ValueType) → T.carrier → Value → T.carrier)
    (acc : Process → Except Failure Bool × Process)
    (ptr : Process → Option (Handle .bool)) (key : String) (dflt : Bool)
    (desc : Option String)
    (hfirst : ∀ p, ptr p = none → p.config.is_declared key = false →
      (acc p).1 = .ok (p.config.read resolve
        ({ key := key, default_value := dflt } : Handle .bool)) ∧
      ptr (acc p).2 = some { key := key, default_value := dflt } ∧
      (acc p).2.config.table =
        p.config.table ++ [{ key := key, default_value := .bool dflt, description := desc }] ∧
      (acc p).2.config.overrides = p.config.overrides)
    (hlater : ∀ p h, ptr p = some h → acc p = (.ok (p.config.read resolve h), p)) :
    LazyAccessor resolve acc ptr key dflt desc := by
  refine ⟨hfirst, hlater, ?_, ?_⟩
  · intro p N hp hd hN
    obtain ⟨n, rfl⟩ : ∃ n, N = n + 1 := ⟨N - 1, by omega⟩
    obtain ⟨h1, h2, _, h4⟩ := hfirst p hp hd
    have hq := hlater (acc p).2 _ h2
    rw [read_congr resolve (acc p).2.config p.config _ h4] at hq
    have hrest := call_results_fixed acc (acc p).2 _ hq n
    rcases hx : acc p with ⟨res, q⟩
    rw [hx] at h1 hrest
    simp only at h1
    subst h1
    simp [call_results, hx, hrest, List.replicate_succ]
  · intro p ho
    exact read_of_no_override resolve p.config _ ho

/-- Claim C4: each of `get_use_high_res_clock`, `get_paranoid_clock` and
`get_verify_dcast` is a lazy accessor in the sense of `LazyAccessor`: the
first call declares the key (use-high-res-clock, paranoid-clock,
verify-dcast) with its default (true, false, true), later calls declare
nothing and leave the state unchanged, every call returns the current value
of the variable, and with no override that value is the default. -/
theorem lazy_accessors_declare_once_C4 (PRC_DESC : String → String)
    (resolve : (T : ValueType) → T.carrier → Value → T.carrier) :
    LazyAccessor resolve (get_use_high_res_clock PRC_DESC resolve)
      (fun p => p.use_high_res_clock) "use-high-res-clock" true
      (some (PRC_DESC (
        "Set this to false to avoid using the high-precision clock, even if " ++
        "it is available."))) ∧
    LazyAccessor resolve (get_paranoid_clock PRC_DESC resolve)
      (fun p => p.paranoid_clock) "paranoid-clock" false
      (some (PRC_DESC (
        "Set this to true to double-check the results of the high-resolution " ++
        "clock against the system clock.  This has no effect if NDEBUG is " ++
        "defined."))) ∧
    LazyAccessor resolve (get_verify_dcast PRC_DESC resolve)
      (fun p => p.verify_dcast) "verify-dcast" true
      (some (PRC_DESC (
        "Set this to true to verify that every attempted DCAST operation in " ++
        "fact references the correct type, or false otherwise.  This has no " ++
        "effect if NDEBUG is defined, in which case it is never tested."))) := by
  refine ⟨?_, ?_, ?_⟩
  · apply lazy_accessor_of_steps
    · intro p hp hd
      simp only at hp
      simp only [get_use_high_res_clock, hp, declare_of_not_declared _ _ _ _ _ hd]
      exact ⟨congrArg _ (read_congr resolve _ _ _ rfl), trivial, rfl, trivial⟩
    · intro p h hp
      simp only at hp
      simp only [get_use_high_res_clock, hp]
  · apply lazy_accessor_of_steps
    · intro p hp hd
      simp only at hp
      simp only [get_paranoid_clock, hp, declare_of_not_declared _ _ _ _ _ hd]
      exact ⟨congrArg _ (read_congr resolve _ _ _ rfl), trivial, rfl, trivial⟩
    · intro p h hp
      simp only at hp
      simp only [get_paranoid_clock, hp]
  · apply lazy_accessor_of_steps
    · intro p hp hd
      simp only at hp
      simp only [get_verify_dcast, hp, declare_of_not_declared _ _ _ _ _ hd]
      exact ⟨congrArg _ (read_congr resolve _ _ _ rfl), trivial, rfl, trivial⟩
    · intro p h hp
      simp only at hp
      simp only [get_verify_dcast, hp]

theorem lazy_accessors_declare_once_C4_witness :
    (call_results (get_use_high_res_clock id (fun _ d _ => d)) 3 (Process.start [])).1 =
      [.ok true, .ok true, .ok true] ∧
    (call_results (get_paranoid_clock id (fun _ d _ => d)) 2 (Process.start [])).1 =
      [.ok false, .ok false] ∧
    (call_results (get_verify_dcast id (fun _ d _ => d)) 1 (Process.start [])).1 =
      [.ok true] :=
  ⟨((lazy_accessors_declare_once_C4 id (fun _ d _ => d)).1.2.2.1 (Process.start []) 3
      rfl rfl (by decide)).1,
   ((lazy_accessors_declare_once_C4 id (fun _ d _ => d)).2.1.2.2.1 (Process.start []) 2
      rfl rfl (by decide)).1,
   ((lazy_accessors_declare_once_C4 id (fun _ d _ => d)).2.2.2.2.1 (Process.start []) 1
      rfl rfl (by decide)).1⟩

/-! ## The initialiser and the configuration -/

theorem init_libexpress_config (b : Build) (pf : Platform) (p : Process) :
    (init_libexpress b pf p).2.config = p.config := by
  by_cases h : p.express_initialized = true
  · rw [init_libexpress_of_initialized b pf p h]
  · rw [init_libexpress_of_uninitialized b pf p (by simpa using h), run_config]

theorem construct_static_of_not_declared (d : Declaration) (p : Process)
    (hd : p.config.is_declared d.key = false) :
    construct_static d p =
      (.ok (), { p with config :=
        { p.config with table := p.config.table ++
            [{ key := d.key, default_value := Value.of d.type d.default_value,
               description := d.description }] } }) := by
  simp only [construct_static, Declaration.construct, declare_of_not_declared _ _ _ _ _ hd]

/-- Claim C7: a call of `init_libexpress`, the first or a later one, leaves
the configuration registry as it is, so every variable reads the same value
after the call as before it; a call made after the module has been
initialised changes nothing of the process state (no further registration or
announcement, no failure).  In particular: when collect-tcp is declared
where it was neither declared nor overridden, it reads false; after an
override to true it reads true; and after `init_libexpress` is invoked, and
invoked again, it still reads true, the second invocation leaving the whole
state unchanged. -/
theorem init_changes_no_config_C7 (b : Build) (pf : Platform) (PRC_DESC : String → String)
    (resolve : (T : ValueType) → T.carrier → Value → T.carrier) (p : Process) :
    (init_libexpress b pf p).2.config = p.config ∧
    (∀ (T : ValueType) (h : Handle T),
      (init_libexpress b pf p).2.config.read resolve h = p.config.read resolve h) ∧
    init_libexpress b pf (init_libexpress b pf p).2 = (.ok (), (init_libexpress b pf p).2) ∧
    (p.config.is_declared "collect-tcp" = false →
      p.config.overrides.lookup "collect-tcp" = none →
      ∃ h : Handle .bool,
        ((collect_tcp PRC_DESC).construct p.config).1 = .ok h ∧
        (construct_static (collect_tcp PRC_DESC) p).1 = .ok () ∧
        (construct_static (collect_tcp PRC_DESC) p).2.config.read resolve h = false ∧
        (Process.override "collect-tcp" (.bool true)
          (construct_static (collect_tcp PRC_DESC) p).2).config.read resolve h = true ∧
        (init_libexpress b pf (Process.override "collect-tcp" (.bool true)
          (construct_static (collect_tcp PRC_DESC) p).2)).2.config.read resolve h = true ∧
        (init_libexpress b pf (init_libexpress b pf (Process.override "collect-tcp" (.bool true)
          (construct_static (collect_tcp PRC_DESC) p).2)).2).2.config.read resolve h = true ∧
        init_libexpress b pf (init_libexpress b pf (Process.override "collect-tcp" (.bool true)
          (construct_static (collect_tcp PRC_DESC) p).2)).2 =
          (.ok (), (init_libexpress b pf (Process.override "collect-tcp" (.bool true)
            (construct_static (collect_tcp PRC_DESC) p).2)).2)) := by
  have hfix : ∀ q : Process,
      init_libexpress b pf (init_libexpress b pf q).2 = (.ok (), (init_libexpress b pf q).2) :=
    fun q => init_libexpress_of_initialized b pf _ (init_libexpress_initialized b pf q)
  refine ⟨init_libexpress_config b pf p, ?_, hfix p, ?_⟩
  · intro T h
    rw [init_libexpress_config]
  · intro hd ho
    have hdecl := declare_of_not_declared .bool "collect-tcp" false
      (collect_tcp PRC_DESC).description p.config hd
    have hcs := construct_static_of_not_declared (collect_tcp PRC_DESC) p hd
    have hov : (construct_static (collect_tcp PRC_DESC) p).2.config.overrides =
        p.config.overrides := by
      rw [hcs]
    have hread : (Process.override "collect-tcp" (.bool true)
        (construct_static (collect_tcp PRC_DESC) p).2).config.read resolve
          ({ key := "collect-tcp", default_value := false } : Handle .bool) = true := by
      refine read_of_override resolve (T := .bool) _ _ true ?_
      simp only [Process.override]
      rw [lookup_override]
      rfl
    refine ⟨{ key := "collect-tcp", default_value := false }, ?_, ?_, ?_, hread, ?_, ?_, hfix _⟩
    · exact congrArg Prod.fst hdecl
    · rw [hcs]
    · refine read_of_no_override resolve (T := .bool) _ _ ?_
      rw [hov]
      exact ho
    · rw [init_libexpress_config]
      exact hread
    · rw [hfix, init_libexpress_config]
      exact hread

theorem init_changes_no_config_C7_witness :
    (Process.start []).config.is_declared "collect-tcp" = false ∧
    (Process.start []).config.overrides.lookup "collect-tcp" = none ∧
    ∃ h : Handle .bool,
      ((collect_tcp id).construct (Process.start []).config).1 = .ok h ∧
      (init_libexpress ⟨true, false, false⟩ ⟨1, 1, 2, 2, 4, 4, 8, 8, 4, 8, .little⟩
        (Process.override "collect-tcp" (.bool true)
          (construct_static (collect_tcp id) (Process.start [])).2)).2.config.read
        (fun _ d _ => d) h = true :=
  ⟨rfl, rfl,
   ((init_changes_no_config_C7 ⟨true, false, false⟩ ⟨1, 1, 2, 2, 4, 4, 8, 8, 4, 8, .little⟩
      id (fun _ d _ => d) (Process.start [])).2.2.2 rfl rfl).imp
     (fun _ hh => ⟨hh.1, hh.2.2.2.2.1⟩)⟩

/-! ## The seventeen keys -/

theorem static_variable_key (PRC_DESC : String → String) (i : Fin 14) :
    (static_variable PRC_DESC i).key = (static_variable id i).key := by
  fin_cases i <;> rfl

theorem static_keys_distinct (PRC_DESC : String → String) (i j : Fin 14) (h : i ≠ j) :
    ((static_variable PRC_DESC i).key == (static_variable PRC_DESC j).key) = false := by
  rw [static_variable_key PRC_DESC i, static_variable_key PRC_DESC j]
  revert i j
  decide

theorem static_keys_not_lazy (PRC_DESC : String → String) (i : Fin 14) :
    ((static_variable PRC_DESC i).key == "use-high-res-clock") = false ∧
    ((static_variable PRC_DESC i).key == "paranoid-clock") = false ∧
    ((static_variable PRC_DESC i).key == "verify-dcast") = false ∧
    ("use-high-res-clock" == (static_variable PRC_DESC i).key) = false ∧
    ("paranoid-clock" == (static_variable PRC_DESC i).key) = false ∧
    ("verify-dcast" == (static_variable PRC_DESC i).key) = false := by
  rw [static_variable_key PRC_DESC i]
  revert i
  decide

theorem is_declared_append (r : ConfigRegistry) (e : ConfigEntry) (k : String) :
    ({ r with table := r.table ++ [e] } : ConfigRegistry).is_declared k =
      (r.is_declared k || e.key == k) := by
  simp [ConfigRegistry.is_declared]

theorem construct_step_free (PRC_DESC : String → String) (i : Fin 14) (rest : List (Fin 14))
    (p : Process) (hn : (i :: rest).Nodup) (hf : keys_free PRC_DESC p (i :: rest)) :
    (construct_static (static_variable PRC_DESC i) p).1 = .ok () ∧
    keys_free PRC_DESC (construct_static (static_variable PRC_DESC i) p).2 rest := by
  obtain ⟨h1, h2, h3, h4⟩ := hf
  have hi := h1 i (List.mem_cons_self _ _)
  have hcs := construct_static_of_not_declared (static_variable PRC_DESC i) p hi
  have hlazy := static_keys_not_lazy PRC_DESC i
  rw [hcs]
  refine ⟨rfl, ?_, ?_, ?_, ?_⟩
  · intro j hj
    have hij : i ≠ j := fun h => (List.nodup_cons.1 hn).1 (h ▸ hj)
    simp only [is_declared_append, h1 j (List.mem_cons_of_mem _ hj),
      static_keys_distinct PRC_DESC i j hij, Bool.or_self]
  · intro hp
    simp only [is_declared_append, h2 hp, hlazy.1, Bool.or_self]
  · intro hp
    simp only [is_declared_append, h3 hp, hlazy.2.1, Bool.or_self]
  · intro hp
    simp only [is_declared_append, h4 hp, hlazy.2.2.1, Bool.or_self]

theorem get_use_high_res_clock_step_free (PRC_DESC : String → String)
    (resolve : (T : ValueType) → T.carrier → Value → T.carrier) (pending : List (Fin 14))
    (p : Process) (hf : keys_free PRC_DESC p pending) :
    (∃ v, (get_use_high_res_clock PRC_DESC resolve p).1 = .ok v) ∧
    keys_free PRC_DESC (get_use_high_res_clock PRC_DESC resolve p).2 pending := by
  obtain ⟨h1, h2, h3, h4⟩ := hf
  cases hp : p.use_high_res_clock with
  | some h =>
    simp only [get_use_high_res_clock, hp]
    exact ⟨⟨_, rfl⟩, h1, fun hh => by simp [hp] at hh, h3, h4⟩
  | none =>
    simp only [get_use_high_res_clock, hp, declare_of_not_declared _ _ _ _ _ (h2 hp)]
    refine ⟨⟨_, rfl⟩, ?_, ?_, ?_, ?_⟩
    · intro j hj
      simp only [is_declared_append, h1 j hj, (static_keys_not_lazy PRC_DESC j).2.2.2.1,
        Bool.or_self]
    · intro hh
      simp at hh
    · intro hh
      have : ("use-high-res-clock" == "paranoid-clock") = false := by decide
      simp only [is_declared_append, h3 hh, this, Bool.or_self]
    · intro hh
      have : ("use-high-res-clock" == "verify-dcast") = false := by decide
      simp only [is_declared_append, h4 hh, this, Bool.or_self]

theorem get_paranoid_clock_step_free (PRC_DESC : String → String)
    (resolve : (T : ValueType) → T.carrier → Value → T.carrier) (pending : List (Fin 14))
    (p : Process) (hf : keys_free PRC_DESC p pending) :
    (∃ v, (get_paranoid_clock PRC_DESC resolve p).1 = .ok v) ∧
    keys_free PRC_DESC (get_paranoid_clock PRC_DESC resolve p).2 pending := by
  obtain ⟨h1, h2, h3, h4⟩ := hf
  cases hp : p.paranoid_clock with
  | some h =>
    simp only [get_paranoid_clock, hp]
    exact ⟨⟨_, rfl⟩, h1, h2, fun hh => by simp [hp] at hh, h4⟩
  | none =>
    simp only [get_paranoid_clock, hp, declare_of_not_declared _ _ _ _ _ (h3 hp)]
    refine ⟨⟨_, rfl⟩, ?_, ?_, ?_, ?_⟩
    · intro j hj
      simp only [is_declared_append, h1 j hj, (static_keys_not_lazy PRC_DESC j).2.2.2.2.1,
        Bool.or_self]
    · intro hh
      have : ("paranoid-clock" == "use-high-res-clock") = false := by decide
      simp only [is_declared_append, h2 hh, this, Bool.or_self]
    · intro hh
      simp at hh
    · intro hh
      have : ("paranoid-clock" == "verify-dcast") = false := by decide
      simp only [is_declared_append, h4 hh, this, Bool.or_self]

theorem get_verify_dcast_step_free (PRC_DESC : String → String)
    (resolve : (T : ValueType) → T.carrier → Value → T.carrier) (pending : List (Fin 14))
    (p : Process) (hf : keys_free PRC_DESC p pending) :
    (∃ v, (get_verify_dcast PRC_DESC resolve p).1 = .ok v) ∧
    keys_free PRC_DESC (get_verify_dcast PRC_DESC resolve p).2 pending := by
  obtain ⟨h1, h2, h3, h4⟩ := hf
  cases hp : p.verify_dcast with
  | some h =>
    simp only [get_verify_dcast, hp]
    exact ⟨⟨_, rfl⟩, h1, h2, h3, fun hh => by simp [hp] at hh⟩
  | none =>
    simp only [get_verify_dcast, hp, declare_of_not_declared _ _ _ _ _ (h4 hp)]
    refine ⟨⟨_, rfl⟩, ?_, ?_, ?_, ?_⟩
    · intro j hj
      simp only [is_declared_append, h1 j hj, (static_keys_not_lazy PRC_DESC j).2.2.2.2.2,
        Bool.or_self]
    · intro hh
      have : ("verify-dcast" == "use-high-res-clock") = false := by decide
      simp only [is_declared_append, h2 hh, this, Bool.or_self]
    · intro hh
      have : ("verify-dcast" == "paranoid-clock") = false := by decide
      simp only [is_declared_append, h3 hh, this, Bool.or_self]
    · intro hh
      simp at hh

theorem step_free (PRC_DESC : String → String)
    (resolve : (T : ValueType) → T.carrier → Value → T.carrier) (o : Op) (rest : List Op)
    (p : Process) (hn : (constructed (o :: rest)).Nodup)
    (hf : keys_free PRC_DESC p (constructed (o :: rest))) :
    (o.step PRC_DESC resolve p).1 = .ok () ∧
    keys_free PRC_DESC (o.step PRC_DESC resolve p).2 (constructed rest) := by
  cases o with
  | construct i => exact construct_step_free PRC_DESC i (constructed rest) p hn hf
  | get_use_high_res_clock =>
    obtain ⟨⟨v, hv⟩, hk⟩ := get_use_high_res_clock_step_free PRC_DESC resolve _ p hf
    exact ⟨by simp [Op.step, hv, Except.map], hk⟩
  | get_paranoid_clock =>
    obtain ⟨⟨v, hv⟩, hk⟩ := get_paranoid_clock_step_free PRC_DESC resolve _ p hf
    exact ⟨by simp [Op.step, hv, Except.map], hk⟩
  | get_verify_dcast =>
    obtain ⟨⟨v, hv⟩, hk⟩ := get_verify_dcast_step_free PRC_DESC resolve _ p hf
    exact ⟨by simp [Op.step, hv, Except.map], hk⟩

theorem run_ops_ok_of_free (PRC_DESC : String → String)
    (resolve : (T : ValueType) → T.carrier → Value → T.carrier) (ops : List Op)
    (p : Process) (hn : (constructed ops).Nodup)
    (hf : keys_free PRC_DESC p (constructed ops)) :
    (run_ops PRC_DESC resolve ops p).1 = .ok () := by
  induction ops generalizing p with
  | nil => rfl
  | cons o rest ih =>
    obtain ⟨hok, hk⟩ := step_free PRC_DESC resolve o rest p hn hf
    have hn2 : (constructed rest).Nodup := by
      cases o with
      | construct i => exact (List.nodup_cons.1 hn).2
      | get_use_high_res_clock => exact hn
      | get_paranoid_clock => exact hn
      | get_verify_dcast => exact hn
    rcases hx : o.step PRC_DESC resolve p with ⟨res, q⟩
    rw [hx] at hok hk
    simp only at hok
    subst hok
    simp only [run_ops, hx]
    exact ih q hn2 hk

theorem keys_free_start (PRC_DESC : String → String) (overrides : List (String × Value))
    (pending : List (Fin 14)) : keys_free PRC_DESC (Process.start overrides) pending :=
  ⟨fun _ _ => rfl, fun _ => rfl, fun _ => rfl, fun _ => rfl⟩

/-- Claim C10: the seventeen keys declared by `config_express.cxx` (fourteen
static, three lazy) are pairwise distinct; hence any sequence of events
made of the static initialisers, each at most once and in any order, and of
any number of calls of the three lazy accessors, run from process start
(whatever overrides are present), ends without failure: no declaration meets
a key that is already declared. -/
theorem express_keys_never_collide_C10 (PRC_DESC : String → String)
    (resolve : (T : ValueType) → T.carrier → Value → T.carrier) :
    (express_keys PRC_DESC).length = 17 ∧
    (express_keys PRC_DESC).Nodup ∧
    ∀ (ops : List Op) (overrides : List (String × Value)), (constructed ops).Nodup →
      (run_ops PRC_DESC resolve ops (Process.start overrides)).1 = .ok () := by
  refine ⟨rfl, ?_, ?_⟩
  · simp [express_keys, express_declarations, patchfile_window_size, patchfile_increment_size,
      patchfile_buffer_size, patchfile_zone_size, keep_temporary_files, encryption_algorithm,
      encryption_key_length, encryption_iteration_count, multifile_encryption_iteration_count,
      vfs_case_sensitive, vfs_implicit_pz, use_vfs, collect_tcp, collect_tcp_interval]
  · intro ops overrides hn
    exact run_ops_ok_of_free PRC_DESC resolve ops _ hn (keys_free_start PRC_DESC overrides _)

theorem express_keys_never_collide_C10_witness :
    (constructed [.get_verify_dcast, .construct 13, .construct 0, .get_verify_dcast,
      .get_use_high_res_clock, .construct 5, .get_paranoid_clock]).Nodup ∧
    (run_ops id (fun _ d _ => d)
      [.get_verify_dcast, .construct 13, .construct 0, .get_verify_dcast,
        .get_use_high_res_clock, .construct 5, .get_paranoid_clock]
      (Process.start [("verify-dcast", .bool false)])).1 = .ok () :=
  ⟨by decide,
   (express_keys_never_collide_C10 id (fun _ d _ => d)).2.2 _ _ (by decide)⟩

end Panda
